import Mathlib

/-!
Shallow embedding of the content-management backend (Express routes in
server.js plus the persistence-access service layer).  Machine dates are
modelled as natural numbers, Mongo ObjectIds as natural numbers, and the
document store as an in-memory list threaded through each operation.
JavaScript strings that may be absent from a request body are modelled as
Option String, so that strict inequality on possibly-undefined values and
JS truthiness can be expressed faithfully.
-/

namespace Backend

/-- Models the JavaScript expression s.substring(0, n): the first n
characters of s, or all of s when it is shorter. -/
def jsSubstring (s : String) (n : Nat) : String :=
  String.mk (s.data.take n)

/-- Models Math.ceil(a / b) for natural operands with b positive, as
computed by the pagination and read-time code. -/
def jsCeilDiv (a b : Nat) : Nat :=
  (a + b - 1) / b

/-- JS truthiness of a possibly-absent string: undefined and the empty
string are falsy, every other string is truthy. -/
def strTruthy : Option String → Bool
  | none => false
  | some s => s != ""

/-- Models the JavaScript expression s.split(sep) for a one-character
separator: the segments between occurrences of the separator, keeping
empty segments, with [[]] for the empty string. -/
def splitOnChar (c : Char) : List Char → List (List Char)
  | [] => [[]]
  | x :: xs =>
      let r := splitOnChar c xs
      if x = c then [] :: r
      else
        match r with
        | [] => [[x]]
        | y :: ys => (x :: y) :: ys

-- ===== Credential store (user-service.js / server.js user management) =====

/-- A persisted user document: userName (unique), bcrypt password hash,
creation timestamp. -/
structure UserRec where
  id : Nat
  userName : String
  password : String
  createdAt : Nat
deriving Repr, DecidableEq

/-- The users collection. -/
abbrev UserStore := List UserRec

/-- Models User.findOne with a userName filter: first document whose
userName equals the given name. -/
def findOneByUserName (store : UserStore) (name : String) : Option UserRec :=
  store.find? (fun u => u.userName == name)

/-- Models User.findById. -/
def findUserById (store : UserStore) (id : Nat) : Option UserRec :=
  store.find? (fun u => u.id == id)

/-- checkUser from the service layer.  The bcrypt comparison is abstracted
as the oracle cmp, applied to the submitted password (possibly absent) and
the stored hash.  Rejects when the user is missing or the comparison
fails, otherwise resolves the stored document. -/
def checkUser (store : UserStore) (cmp : Option String → String → Bool)
    (userName : String) (password : Option String) : Except String UserRec :=
  match findOneByUserName store userName with
  | none => Except.error "User not found"
  | some u =>
      if cmp password u.password then Except.ok u
      else Except.error ("Incorrect password for user " ++ userName)

/-- getUserById from the service layer: rejects when the id resolves to no
document, otherwise resolves the stored document. -/
def getUserById (store : UserStore) (id : Nat) : Except String UserRec :=
  match findUserById store id with
  | none => Except.error "User not found"
  | some u => Except.ok u

/-- The value resolved by registerUser in server.js: id, userName and
creation timestamp of the saved document; the password hash is not part
of this record. -/
structure UserResponse where
  id : Nat
  userName : String
  createdAt : Nat
deriving Repr, DecidableEq

/-- Observable calls made by registerUser against the store and the
hashing library, in order: the duplicate-username lookup, the bcrypt hash
call, and the save of a new document. -/
inductive RegEvent where
  | dupCheck (userName : String)
  | hashCall (password : Option String)
  | save (rec : UserRec)
deriving Repr, DecidableEq

/-- Result of registerUser: the settled promise, the users collection
afterwards, and the trace of store/hash calls that were performed. -/
structure RegResult where
  result : Except String UserResponse
  store : UserStore
  events : List RegEvent
deriving Repr

/-- registerUser: rejects "Passwords do not match" when the two submitted
passwords differ under strict comparison, before touching the store;
rejects "Username already exists" when the findOne lookup hits; otherwise
salts and hashes (abstracted as bhash, which may itself fail), saves a new
document with a fresh id, and resolves the created identity. -/
def registerUser (store : UserStore) (bhash : Option String → Except String String)
    (freshId now : Nat) (userName : String) (password password2 : Option String) :
    RegResult :=
  if password ≠ password2 then
    ⟨Except.error "Passwords do not match", store, []⟩
  else
    match findOneByUserName store userName with
    | some _ => ⟨Except.error "Username already exists", store, [RegEvent.dupCheck userName]⟩
    | none =>
        match bhash password with
        | Except.error e => ⟨Except.error e, store, [RegEvent.dupCheck userName, RegEvent.hashCall password]⟩
        | Except.ok h =>
            ⟨Except.ok ⟨freshId, userName, now⟩,
             store ++ [⟨freshId, userName, h, now⟩],
             [RegEvent.dupCheck userName, RegEvent.hashCall password,
              RegEvent.save ⟨freshId, userName, h, now⟩]⟩

-- ===== Token issue and validation (jsonwebtoken + passport JWTStrategy) =====

/-- The payload embedded in a session token: user id and userName. -/
structure Payload where
  id : Nat
  userName : String
deriving Repr, DecidableEq

/-- A signed token.  The secret field models the signature: verification
succeeds exactly when the verifying secret equals the signing secret. -/
structure Token where
  payload : Payload
  secret : String
deriving Repr, DecidableEq

/-- jwt.sign over the login/register payload. -/
def jwtSign (p : Payload) (secret : String) : Token :=
  ⟨p, secret⟩

/-- Signature verification performed by passport-jwt before the strategy
callback runs. -/
def jwtVerify (t : Token) (secret : String) : Option Payload :=
  if t.secret == secret then some t.payload else none

/-- The JWTStrategy callback in server.js: after signature verification,
resolve the embedded id through getUserById; authenticate as that user,
or fail closed. -/
def jwtStrategy (store : UserStore) (secret : String) (t : Token) : Option UserRec :=
  match jwtVerify t secret with
  | none => none
  | some p =>
      match getUserById store p.id with
      | Except.ok u => some u
      | Except.error _ => none

-- ===== User routes (server.js) =====

/-- A JSON value appearing in a response body of the user routes. -/
inductive JVal where
  | jstr (s : String)
  | jtok (t : Token)
  | juser (id : Nat) (userName : String)
deriving Repr, DecidableEq

/-- An HTTP response: status code and JSON body as an ordered field list. -/
structure HttpResp where
  status : Nat
  body : List (String × JVal)
deriving Repr, DecidableEq

/-- POST /api/user/login: checkUser, then sign a token over the id and
userName of the resolved user; any rejection is caught and answered with
401. -/
def loginRoute (store : UserStore) (cmp : Option String → String → Bool)
    (secret : String) (userName : String) (password : Option String) : HttpResp :=
  match checkUser store cmp userName password with
  | Except.error _ => ⟨401, [("message", JVal.jstr "Authentication failed")]⟩
  | Except.ok u =>
      let token := jwtSign ⟨u.id, u.userName⟩ secret
      ⟨200, [("message", JVal.jstr "Login successful"),
             ("token", JVal.jtok token),
             ("user", JVal.juser u.id u.userName)]⟩

/-- POST /api/user/register: registerUser, then sign a token over the
created identity and answer 201 with a message and the token; any
rejection is caught and answered with 422.  The second component is the
users collection after the call. -/
def registerRoute (store : UserStore) (bhash : Option String → Except String String)
    (secret : String) (freshId now : Nat) (userName : String)
    (password password2 : Option String) : HttpResp × UserStore :=
  let r := registerUser store bhash freshId now userName password password2
  match r.result with
  | Except.ok u =>
      let token := jwtSign ⟨u.id, u.userName⟩ secret
      (⟨201, [("message", JVal.jstr "User created successfully"),
              ("token", JVal.jtok token)]⟩, r.store)
  | Except.error msg => (⟨422, [("message", JVal.jstr msg)]⟩, r.store)

-- ===== Blog management (server.js service layer) =====

/-- A persisted blog document, following blogSchema. -/
structure Blog where
  id : Nat
  title : String
  content : String
  featuredImage : Option String
  date : Nat
  updatedAt : Nat
  author : Nat
  published : Bool
  tags : List String
  excerpt : Option String
  readTime : Nat
deriving Repr, DecidableEq

/-- The derived excerpt: content.substring(0, 297) followed by the
three-dot ellipsis, appended unconditionally. -/
def deriveExcerpt (content : String) : String :=
  jsSubstring content 297 ++ "..."

/-- The word count used by the read-time computation:
content.split(" ").length, which counts the segments between single
spaces, including empty segments produced by consecutive spaces, and is 1
for the empty string. -/
def wordCount (content : String) : Nat :=
  (splitOnChar ' ' content.data).length

/-- The derived read time: Math.ceil(wordCount / 200) minutes. -/
def deriveReadTime (content : String) : Nat :=
  jsCeilDiv (wordCount content) 200

/-- The request body accepted by createBlog; absent fields are none. -/
structure BlogData where
  title : String
  content : String
  featuredImage : Option String
  published : Bool
  tags : List String
  excerpt : Option String
  readTime : Option Nat
deriving Repr, DecidableEq

/-- Mongoose document validation from blogSchema, applied on save: title
and content are required (mongoose rejects an empty string for a required
string path), and excerpt has maxlength 300. -/
def blogDocValid (b : Blog) : Bool :=
  b.title != "" && b.content != "" &&
  (match b.excerpt with
   | some e => decide (e.length ≤ 300)
   | none => true)

/-- The in-place mutation createBlog performs on its request body before
constructing the document: derive the excerpt when none was supplied and
content is truthy, and derive the read time when content is truthy. -/
def deriveBlogData (d : BlogData) : BlogData :=
  { d with
    excerpt :=
      if !strTruthy d.excerpt && d.content != "" then some (deriveExcerpt d.content)
      else d.excerpt,
    readTime :=
      if d.content != "" then some (deriveReadTime d.content)
      else d.readTime }

/-- The document constructed from the (mutated) request body: the spread
of the body fields with the caller as author, the current time for both
timestamps, and the schema default of 5 for a missing read time. -/
def newBlogDoc (d : BlogData) (authorId freshId now : Nat) : Blog :=
  { id := freshId, title := d.title, content := d.content,
    featuredImage := d.featuredImage, date := now, updatedAt := now,
    author := authorId, published := d.published, tags := d.tags,
    excerpt := d.excerpt, readTime := d.readTime.getD 5 }

/-- createBlog: mutate the request body (excerpt, read time), construct
the new document owned by authorId, validate it against the schema on
save, and resolve it. -/
def createBlog (store : List Blog) (d : BlogData) (authorId freshId now : Nat) :
    Except String (Blog × List Blog) :=
  let b := newBlogDoc (deriveBlogData d) authorId freshId now
  if blogDocValid b then Except.ok (b, store ++ [b])
  else Except.error "Error creating blog: ValidationError"

/-- The update document accepted by updateBlog; a none field is not part
of the update. -/
structure BlogUpdate where
  title : Option String
  content : Option String
  featuredImage : Option String
  published : Option Bool
  tags : Option (List String)
  excerpt : Option String
  readTime : Option Nat
deriving Repr, DecidableEq

/-- The in-place mutation updateBlog performs on its update document
before issuing the query: derive the excerpt when none was supplied and
content is updated to a truthy value, and derive the read time when
content is updated to a truthy value. -/
def deriveBlogUpdate (u0 : BlogUpdate) : BlogUpdate :=
  let u1 :=
    if !strTruthy u0.excerpt && strTruthy u0.content then
      { u0 with excerpt := some (deriveExcerpt (u0.content.getD "")) }
    else u0
  if strTruthy u1.content then
    { u1 with readTime := some (deriveReadTime (u1.content.getD "")) }
  else u1

/-- Mongoose update validation (runValidators: true): the validators of
each path being set are run, so a set title or content must be non-empty
and a set excerpt must have length at most 300. -/
def blogUpdateValid (u : BlogUpdate) : Bool :=
  (match u.title with | some t => t != "" | none => true) &&
  (match u.content with | some c => c != "" | none => true) &&
  (match u.excerpt with | some e => decide (e.length ≤ 300) | none => true)

/-- The ownership filter used by updateBlog and deleteBlog:
both the document id and the author must match the caller. -/
def blogMatches (id authorId : Nat) (b : Blog) : Bool :=
  b.id == id && b.author == authorId

/-- Application of the update document to the matched blog, with
updatedAt set to the current time as updateBlog does. -/
def applyBlogUpdate (b : Blog) (u : BlogUpdate) (now : Nat) : Blog :=
  { id := b.id,
    title := u.title.getD b.title,
    content := u.content.getD b.content,
    featuredImage :=
      match u.featuredImage with
      | some v => some v
      | none => b.featuredImage,
    date := b.date,
    updatedAt := now,
    author := b.author,
    published := u.published.getD b.published,
    tags := u.tags.getD b.tags,
    excerpt :=
      match u.excerpt with
      | some v => some v
      | none => b.excerpt,
    readTime := u.readTime.getD b.readTime }

/-- Replace the first document matched by p with b2, as
findOneAndUpdate does. -/
def replaceFirst (p : Blog → Bool) (b2 : Blog) : List Blog → List Blog
  | [] => []
  | x :: xs => if p x then b2 :: xs else x :: replaceFirst p b2 xs

/-- updateBlog: mutate the update document (excerpt, read time,
updatedAt), then findOneAndUpdate filtered by id and author with
runValidators; a null query result is rejected with the collapsed
not-found-or-unauthorized error. -/
def updateBlog (store : List Blog) (id : Nat) (u0 : BlogUpdate)
    (authorId now : Nat) : Except String (Blog × List Blog) :=
  let u := deriveBlogUpdate u0
  if blogUpdateValid u then
    match store.find? (blogMatches id authorId) with
    | none => Except.error "Blog not found or unauthorized"
    | some b =>
        let b2 := applyBlogUpdate b u now
        Except.ok (b2, replaceFirst (blogMatches id authorId) b2 store)
  else Except.error "Error updating blog: ValidationError"

/-- Outcome of one call to the remote asset host. -/
inductive CloudResult where
  | success
  | failure (err : String)
deriving Repr, DecidableEq

/-- The public id extracted from a stored locator before the remote
delete: url.split("/").pop().split(".")[0]. -/
def publicIdOf (url : String) : String :=
  String.mk ((splitOnChar '.' ((splitOnChar '/' url.data).getLastD [])).headD [])

/-- Observable outcome of deleteBlog: the blogs collection afterwards,
the remote asset deletions that were attempted, and the console log. -/
structure BlogDeleteOutcome where
  store : List Blog
  remoteDeletes : List String
  log : List String
deriving Repr, DecidableEq

/-- deleteBlog: findOneAndDelete filtered by id and author; a null result
is rejected with the collapsed not-found-or-unauthorized error; when the
deleted document carries a truthy featuredImage, a best-effort remote
delete of portfolio/images/publicId is attempted, and a failure of that
call is only written to the log. -/
def deleteBlog (store : List Blog) (id authorId : Nat)
    (cloud : String → CloudResult) : Except String BlogDeleteOutcome :=
  match store.find? (blogMatches id authorId) with
  | none => Except.error "Blog not found or unauthorized"
  | some b =>
      let store2 := store.eraseP (blogMatches id authorId)
      if strTruthy b.featuredImage then
        let target := "portfolio/images/" ++ publicIdOf (b.featuredImage.getD "")
        match cloud target with
        | CloudResult.success => Except.ok ⟨store2, [target], []⟩
        | CloudResult.failure e =>
            Except.ok ⟨store2, [target], ["Error deleting image from Cloudinary: " ++ e]⟩
      else Except.ok ⟨store2, [], []⟩

/-- The pagination object returned by the list endpoints. -/
structure Pagination where
  currentPage : Nat
  totalPages : Nat
  totalCount : Nat
  hasNextPage : Bool
  hasPreviousPage : Bool
deriving Repr, DecidableEq

/-- getBlogs: filter to published documents unless overridden, sort by
date descending, skip (page - 1) * limit documents and return at most
limit of them, together with the pagination object computed from the
total count of the filtered collection. -/
def getBlogs (store : List Blog) (publishedOnly : Bool) (page limit : Nat) :
    List Blog × Pagination :=
  let filtered := if publishedOnly then store.filter (fun b => b.published) else store
  let sorted := filtered.mergeSort (fun a b => decide (b.date ≤ a.date))
  let skip := (page - 1) * limit
  ((sorted.drop skip).take limit,
   { currentPage := page,
     totalPages := jsCeilDiv filtered.length limit,
     totalCount := filtered.length,
     hasNextPage := decide (page < jsCeilDiv filtered.length limit),
     hasPreviousPage := decide (1 < page) })

-- ===== Project management (server.js service layer) =====

/-- A persisted project document, following projectSchema. -/
structure Project where
  id : Nat
  title : String
  description : String
  videoUrl : Option String
  projectLink : Option String
  githubLink : Option String
  features : List String
  technologies : List String
  date : Nat
  updatedAt : Nat
  author : Nat
  status : String
deriving Repr, DecidableEq

/-- Whether a character is matched by the JS regex dot, which excludes
the four line terminators. -/
def jsDotChar (c : Char) : Bool :=
  c != Char.ofNat 10 && c != Char.ofNat 13 &&
  c != Char.ofNat 0x2028 && c != Char.ofNat 0x2029

/-- The link validator regex test from projectSchema, anchored at the
start: an http or https scheme followed by at least one character matched
by the dot. -/
def httpUrlTest (s : String) : Bool :=
  (s.startsWith "http://" &&
    (match (s.drop 7).data with | [] => false | c :: _ => jsDotChar c)) ||
  (s.startsWith "https://" &&
    (match (s.drop 8).data with | [] => false | c :: _ => jsDotChar c))

/-- The schema validator for projectLink and githubLink: a falsy value
passes, otherwise the regex must match. -/
def urlFieldValid (v : Option String) : Bool :=
  match v with
  | none => true
  | some s => s == "" || httpUrlTest s

/-- The status enum of projectSchema. -/
def statusValid (s : String) : Bool :=
  s == "completed" || s == "in-progress" || s == "planned"

/-- The update document accepted by updateProject. -/
structure ProjectUpdate where
  title : Option String
  description : Option String
  videoUrl : Option String
  projectLink : Option String
  githubLink : Option String
  features : Option (List String)
  technologies : Option (List String)
  status : Option String
deriving Repr, DecidableEq

/-- Mongoose update validation for projects (runValidators: true): a set
title or description must be non-empty, a set link must pass the url
validator, and a set status must belong to the enum. -/
def projectUpdateValid (u : ProjectUpdate) : Bool :=
  (match u.title with | some t => t != "" | none => true) &&
  (match u.description with | some d => d != "" | none => true) &&
  urlFieldValid u.projectLink && urlFieldValid u.githubLink &&
  (match u.status with | some s => statusValid s | none => true)

/-- The ownership filter used by updateProject and deleteProject. -/
def projectMatches (id authorId : Nat) (p : Project) : Bool :=
  p.id == id && p.author == authorId

/-- Application of the update document to the matched project, with
updatedAt set to the current time as updateProject does. -/
def applyProjectUpdate (p : Project) (u : ProjectUpdate) (now : Nat) : Project :=
  { id := p.id,
    title := u.title.getD p.title,
    description := u.description.getD p.description,
    videoUrl :=
      match u.videoUrl with
      | some v => some v
      | none => p.videoUrl,
    projectLink :=
      match u.projectLink with
      | some v => some v
      | none => p.projectLink,
    githubLink :=
      match u.githubLink with
      | some v => some v
      | none => p.githubLink,
    features := u.features.getD p.features,
    technologies := u.technologies.getD p.technologies,
    date := p.date,
    updatedAt := now,
    author := p.author,
    status := u.status.getD p.status }

/-- Replace the first project matched by p with q2, as
findOneAndUpdate does. -/
def replaceFirstProject (p : Project → Bool) (q2 : Project) : List Project → List Project
  | [] => []
  | x :: xs => if p x then q2 :: xs else x :: replaceFirstProject p q2 xs

/-- updateProject: set updatedAt, then findOneAndUpdate filtered by id
and author with runValidators; a null query result is rejected with the
collapsed not-found-or-unauthorized error. -/
def updateProject (store : List Project) (id : Nat) (u : ProjectUpdate)
    (authorId now : Nat) : Except String (Project × List Project) :=
  if projectUpdateValid u then
    match store.find? (projectMatches id authorId) with
    | none => Except.error "Project not found or unauthorized"
    | some p =>
        let p2 := applyProjectUpdate p u now
        Except.ok (p2, replaceFirstProject (projectMatches id authorId) p2 store)
  else Except.error "Error updating project: ValidationError"

/-- Observable outcome of deleteProject. -/
structure ProjectDeleteOutcome where
  store : List Project
  remoteDeletes : List String
  log : List String
deriving Repr, DecidableEq

/-- deleteProject: findOneAndDelete filtered by id and author; a null
result is rejected with the collapsed not-found-or-unauthorized error;
when the deleted document carries a truthy videoUrl, a best-effort remote
delete of portfolio/videos/publicId is attempted, and a failure of that
call is only written to the log. -/
def deleteProject (store : List Project) (id authorId : Nat)
    (cloud : String → CloudResult) : Except String ProjectDeleteOutcome :=
  match store.find? (projectMatches id authorId) with
  | none => Except.error "Project not found or unauthorized"
  | some p =>
      let store2 := store.eraseP (projectMatches id authorId)
      if strTruthy p.videoUrl then
        let target := "portfolio/videos/" ++ publicIdOf (p.videoUrl.getD "")
        match cloud target with
        | CloudResult.success => Except.ok ⟨store2, [target], []⟩
        | CloudResult.failure e =>
            Except.ok ⟨store2, [target], ["Error deleting video from Cloudinary: " ++ e]⟩
      else Except.ok ⟨store2, [], []⟩

/-- getProjects: sort by date descending, skip (page - 1) * limit
documents and return at most limit of them, together with the pagination
object computed from the total count of the collection. -/
def getProjects (store : List Project) (page limit : Nat) :
    List Project × Pagination :=
  let sorted := store.mergeSort (fun a b => decide (b.date ≤ a.date))
  let skip := (page - 1) * limit
  ((sorted.drop skip).take limit,
   { currentPage := page,
     totalPages := jsCeilDiv store.length limit,
     totalCount := store.length,
     hasNextPage := decide (page < jsCeilDiv store.length limit),
     hasPreviousPage := decide (1 < page) })

-- ===== Concrete documents used by witnesses and counterexamples =====

/-- A blog with id 1 owned by author 7. -/
def c1blog : Blog :=
  { id := 1, title := "t", content := "c", featuredImage := none, date := 0,
    updatedAt := 0, author := 7, published := true, tags := [], excerpt := none,
    readTime := 5 }

/-- An update document that sets nothing. -/
def c1upd : BlogUpdate :=
  { title := none, content := none, featuredImage := none, published := none,
    tags := none, excerpt := none, readTime := none }

/-- An explicit excerpt of 301 characters, one more than the schema
maxlength permits. -/
def c1longExcerpt : String :=
  String.mk (List.replicate 301 'x')

/-- An update that only sets the over-long explicit excerpt. -/
def c1badUpd : BlogUpdate :=
  { c1upd with excerpt := some c1longExcerpt }

/-- A project update document that sets nothing. -/
def c1projUpd : ProjectUpdate :=
  { title := none, description := none, videoUrl := none, projectLink := none,
    githubLink := none, features := none, technologies := none, status := none }

/-- A blog carrying a media locator, owned by author 7. -/
def c3blog : Blog :=
  { id := 1, title := "t", content := "c",
    featuredImage := some "http://host/img/pic.png", date := 0, updatedAt := 0,
    author := 7, published := true, tags := [], excerpt := none, readTime := 5 }

/-- A project carrying a video locator, owned by author 7. -/
def c3proj : Project :=
  { id := 1, title := "t", description := "d",
    videoUrl := some "http://host/vid/clip.mp4", projectLink := none,
    githubLink := none, features := [], technologies := [], date := 0,
    updatedAt := 0, author := 7, status := "completed" }

/-- A 1000-character content string. -/
def c4content : String :=
  String.mk (List.replicate 1000 'a')

/-- A create request with 1000-character content and no explicit excerpt. -/
def c4data : BlogData :=
  { title := "T", content := c4content, featuredImage := none,
    published := false, tags := [], excerpt := none, readTime := none }

/-- The blog document createBlog saves for c4data. -/
def c4expected : Blog :=
  { id := 1, title := "T", content := c4content, featuredImage := none,
    date := 0, updatedAt := 0, author := 7, published := false, tags := [],
    excerpt := some (deriveExcerpt c4content), readTime := deriveReadTime c4content }

/-- An update that sets a three-word content. -/
def c4upd : BlogUpdate :=
  { title := none, content := some "one two three", featuredImage := none,
    published := none, tags := none, excerpt := none, readTime := none }

/-- The updated document produced by applying c4upd to c1blog. -/
def c4updated : Blog :=
  applyBlogUpdate c1blog (deriveBlogUpdate c4upd) 9

/-- A create request with a short content and no explicit excerpt. -/
def c9data : BlogData :=
  { title := "T", content := "hi there", featuredImage := none,
    published := false, tags := [], excerpt := none, readTime := none }

/-- The blog document createBlog saves for c9data. -/
def c9expected : Blog :=
  { id := 1, title := "T", content := "hi there", featuredImage := none,
    date := 0, updatedAt := 0, author := 7, published := false, tags := [],
    excerpt := some (deriveExcerpt "hi there"),
    readTime := deriveReadTime "hi there" }

/-- Fifteen published blogs. -/
def c5blogs : List Blog :=
  (List.range 15).map (fun i =>
    { id := i, title := "t", content := "c", featuredImage := none, date := i,
      updatedAt := 0, author := 0, published := true, tags := [],
      excerpt := none, readTime := 5 })

/-- Fifteen projects. -/
def c5projects : List Project :=
  (List.range 15).map (fun i =>
    { id := i, title := "t", description := "d", videoUrl := none,
      projectLink := none, githubLink := none, features := [],
      technologies := [], date := i, updatedAt := 0, author := 0,
      status := "completed" })

/-- A stored credential record. -/
def c6alice : UserRec :=
  { id := 1, userName := "alice", password := "hash1", createdAt := 0 }

/-- A one-user credential store. -/
def c6store : UserStore :=
  [c6alice]

/-- A stored credential record for the duplicate-registration witness. -/
def c8bob : UserRec :=
  { id := 1, userName := "bob", password := "h", createdAt := 0 }

/-- A credential store already holding the userName bob. -/
def c8store : UserStore :=
  [c8bob]

-- ===== Shared helper lemmas =====

/-- The natural-number ceiling division computed by the code agrees with
the mathematical ceiling of the exact quotient. -/
theorem jsCeilDiv_eq_ceil (n s : Nat) (hs : 0 < s) :
    jsCeilDiv n s = ⌈(n : ℚ) / s⌉₊ := by
  have hs0 : (0 : ℚ) < s := by exact_mod_cast hs
  unfold jsCeilDiv
  apply le_antisymm
  · rw [Nat.div_le_iff_le_mul_add_pred hs]
    have h1 : (n : ℚ) ≤ (s : ℚ) * (⌈(n : ℚ) / s⌉₊ : ℚ) := by
      calc (n : ℚ) = s * ((n : ℚ) / s) := by field_simp
        _ ≤ s * (⌈(n : ℚ) / s⌉₊ : ℚ) :=
            mul_le_mul_of_nonneg_left (Nat.le_ceil _) (le_of_lt hs0)
    have h2 : n ≤ s * ⌈(n : ℚ) / s⌉₊ := by exact_mod_cast h1
    generalize s * ⌈(n : ℚ) / s⌉₊ = m at h2 ⊢
    omega
  · have hnat : n ≤ (n + s - 1) / s * s := by
      have h := Nat.lt_div_mul_add hs (a := n + s - 1)
      generalize (n + s - 1) / s * s = k at h ⊢
      omega
    rw [Nat.ceil_le, div_le_iff₀ hs0]
    exact_mod_cast hnat

/-- The length of the modelled substring operation. -/
theorem jsSubstring_length (s : String) (n : Nat) :
    (jsSubstring s n).length = min n s.length := by
  cases s with
  | mk data => simp [jsSubstring, String.length]

/-- Length of a string built from an explicit character list. -/
theorem length_mk (l : List Char) : (String.mk l).length = l.length := by
  simp [String.length]

/-- On a string shorter than the cut, the substring is the whole string. -/
theorem jsSubstring_of_le (s : String) (n : Nat) (h : s.length ≤ n) :
    jsSubstring s n = s := by
  cases s with
  | mk data =>
      simp only [jsSubstring]
      rw [List.take_of_length_le]
      exact h

/-- The ownership filter succeeds exactly on the id and author of the
caller. -/
theorem blogMatches_true_iff (id authorId : Nat) (b : Blog) :
    blogMatches id authorId b = true ↔ b.id = id ∧ b.author = authorId := by
  simp [blogMatches]

/-- The ownership filter for projects succeeds exactly on the id and
author of the caller. -/
theorem projectMatches_true_iff (id authorId : Nat) (p : Project) :
    projectMatches id authorId p = true ↔ p.id = id ∧ p.author = authorId := by
  simp [projectMatches]

/-- In a store whose ids are pairwise distinct, looking a member up by
its own id finds exactly that member. -/
theorem find?_userId_eq (l : UserStore) (u : UserRec) (hmem : u ∈ l)
    (hnd : (l.map UserRec.id).Nodup) :
    l.find? (fun x => x.id == u.id) = some u := by
  induction l with
  | nil => cases hmem
  | cons a t ih =>
      rw [List.map_cons, List.nodup_cons] at hnd
      rcases List.mem_cons.1 hmem with h | h
      · subst h
        exact List.find?_cons_of_pos _ (by simp)
      · have hne : (a.id == u.id) = false := by
          apply beq_eq_false_iff_ne.2
          intro he
          exact hnd.1 (he ▸ List.mem_map_of_mem UserRec.id h)
        rw [List.find?_cons_of_neg _ (by simp [hne])]
        exact ih h hnd.2

/-- Excerpt derivation on an update document whose content is truthy and
whose excerpt is falsy. -/
theorem deriveBlogUpdate_excerpt (u : BlogUpdate) (he : strTruthy u.excerpt = false)
    (hc : strTruthy u.content = true) :
    (deriveBlogUpdate u).excerpt = some (deriveExcerpt (u.content.getD "")) := by
  simp [deriveBlogUpdate, he, hc]

/-- Read-time derivation on an update document whose content is truthy. -/
theorem deriveBlogUpdate_readTime (u : BlogUpdate) (hc : strTruthy u.content = true) :
    (deriveBlogUpdate u).readTime = some (deriveReadTime (u.content.getD "")) := by
  cases he : strTruthy u.excerpt
  · simp [deriveBlogUpdate, he, hc]
  · simp [deriveBlogUpdate, he, hc]

/-- Excerpt derivation on a request body with truthy content and falsy
excerpt. -/
theorem deriveBlogData_excerpt (d : BlogData) (hf : strTruthy d.excerpt = false)
    (hne : d.content ≠ "") :
    (deriveBlogData d).excerpt = some (deriveExcerpt d.content) := by
  simp [deriveBlogData, hf, hne]

/-- Read-time derivation on a request body with truthy content. -/
theorem deriveBlogData_readTime (d : BlogData) (hne : d.content ≠ "") :
    (deriveBlogData d).readTime = some (deriveReadTime d.content) := by
  simp [deriveBlogData, hne]

-- ===== Claim theorems =====

/-- Claim C7: for every registration request in which password and
password2 differ, registerUser rejects with the passwords-do-not-match
error, leaves the credential store unchanged, and performs no store or
hashing call at all (empty event trace), so in particular no user record
is created. -/
theorem register_mismatch_no_persist :
    ∀ (store : UserStore) (bhash : Option String → Except String String)
      (freshId now : Nat) (userName : String) (pw pw2 : Option String),
      pw ≠ pw2 →
      registerUser store bhash freshId now userName pw pw2 =
        ⟨Except.error "Passwords do not match", store, []⟩ := by
  intro store bhash freshId now userName pw pw2 hne
  unfold registerUser
  rw [if_pos hne]

/-- Witness for C7: a concrete mismatched registration on a concrete
store is rejected with the mismatch error and no trace. -/
theorem register_mismatch_no_persist_witness :
    registerUser [] (fun _ => Except.ok "h1") 1 0 "alice" (some "pw") (some "other") =
      ⟨Except.error "Passwords do not match", [], []⟩ :=
  register_mismatch_no_persist [] (fun _ => Except.ok "h1") 1 0 "alice"
    (some "pw") (some "other") (by decide)

/-- Claim C8: for every username that already has a credential record,
another registration attempt with that username leaves the store
unchanged and saves nothing, and, whenever the attempt passes the
password-mismatch check, it is rejected with the conflict error. -/
theorem register_duplicate_conflict :
    ∀ (store : UserStore) (bhash : Option String → Except String String)
      (freshId now : Nat) (userName : String) (pw pw2 : Option String) (u : UserRec),
      findOneByUserName store userName = some u →
      (registerUser store bhash freshId now userName pw pw2).store = store ∧
      (∀ rec, RegEvent.save rec ∉ (registerUser store bhash freshId now userName pw pw2).events) ∧
      (pw = pw2 →
        (registerUser store bhash freshId now userName pw pw2).result =
          Except.error "Username already exists") := by
  intro store bhash freshId now userName pw pw2 u hfind
  by_cases hpw : pw = pw2
  · subst hpw
    refine ⟨?_, ?_, fun _ => ?_⟩ <;> simp [registerUser, hfind]
  · refine ⟨?_, ?_, fun h => absurd h hpw⟩ <;>
      simp [registerUser, if_pos hpw]

/-- Witness for C8: registering the already-present userName bob again
conflicts and modifies nothing. -/
theorem register_duplicate_conflict_witness :
    (registerUser c8store (fun _ => Except.ok "h1") 2 1 "bob" (some "pw") (some "pw")).store = c8store ∧
    (RegEvent.save ⟨2, "bob", "h1", 1⟩ ∉
      (registerUser c8store (fun _ => Except.ok "h1") 2 1 "bob" (some "pw") (some "pw")).events) ∧
    (registerUser c8store (fun _ => Except.ok "h1") 2 1 "bob" (some "pw") (some "pw")).result =
      Except.error "Username already exists" := by
  have h := register_duplicate_conflict c8store (fun _ => Except.ok "h1") 2 1 "bob"
    (some "pw") (some "pw") c8bob (by rfl)
  exact ⟨h.1, h.2.1 _, h.2.2 rfl⟩

/-- Claim C10: the mismatch check is strict equality only, with no
non-emptiness or strength requirement: with any password equal to its
confirmation, including an absent or empty one, registerUser always
reaches the duplicate-username lookup; on a fresh userName it goes on to
the hashing call, and on a taken userName it rejects with the conflict
error rather than a mismatch error. -/
theorem register_equality_only_check :
    ∀ (store : UserStore) (bhash : Option String → Except String String)
      (freshId now : Nat) (userName : String) (pw : Option String),
      RegEvent.dupCheck userName ∈ (registerUser store bhash freshId now userName pw pw).events ∧
      (findOneByUserName store userName = none →
        RegEvent.hashCall pw ∈ (registerUser store bhash freshId now userName pw pw).events) ∧
      (∀ u, findOneByUserName store userName = some u →
        (registerUser store bhash freshId now userName pw pw).result =
          Except.error "Username already exists") := by
  intro store bhash freshId now userName pw
  cases hfind : findOneByUserName store userName with
  | none =>
      cases hb : bhash pw with
      | error e =>
          refine ⟨?_, fun _ => ?_, fun u hu => ?_⟩
          · simp [registerUser, hfind, hb]
          · simp [registerUser, hfind, hb]
          · simp at hu
      | ok h =>
          refine ⟨?_, fun _ => ?_, fun u hu => ?_⟩
          · simp [registerUser, hfind, hb]
          · simp [registerUser, hfind, hb]
          · simp at hu
  | some u =>
      refine ⟨?_, fun hn => ?_, fun v hv => ?_⟩
      · simp [registerUser, hfind]
      · simp at hn
      · simp [registerUser, hfind]

/-- Witness for C10: registration with an absent password equal to its
absent confirmation, on an empty store, reaches the duplicate check and
the hashing call. -/
theorem register_equality_only_check_witness :
    RegEvent.dupCheck "alice" ∈
      (registerUser [] (fun _ => Except.ok "h1") 1 0 "alice" none none).events ∧
    RegEvent.hashCall none ∈
      (registerUser [] (fun _ => Except.ok "h1") 1 0 "alice" none none).events := by
  have h := register_equality_only_check [] (fun _ => Except.ok "h1") 1 0 "alice" none
  exact ⟨h.1, h.2.1 (by rfl)⟩

/-- Counterexample for C2 as stated: a successful concrete registration
answers 201, but the body holds exactly a message and a token; it carries
no user field. -/
theorem register_response_counterexample :
    (registerRoute [] (fun _ => Except.ok "h1") "s" 1 0 "alice" (some "pw") (some "pw")).1.status = 201 ∧
    ((registerRoute [] (fun _ => Except.ok "h1") "s" 1 0 "alice" (some "pw") (some "pw")).1.body.map
      Prod.fst) = ["message", "token"] ∧
    (((registerRoute [] (fun _ => Except.ok "h1") "s" 1 0 "alice" (some "pw") (some "pw")).1.body.map
      Prod.fst).contains "user") = false := by
  refine ⟨rfl, rfl, rfl⟩

/-- Claim C2 (amended): on matching passwords and a fresh username,
registerUser persists a new credential record and resolves the created
identity, which consists of the id, the username and the creation
timestamp only; the route answers 201 with a body containing a message
and a token signed over that identity, but no user object; on a password
mismatch or a duplicate username the route answers 422. -/
theorem register_success_and_route :
    (∀ (store : UserStore) (bhash : Option String → Except String String)
       (secret : String) (freshId now : Nat) (userName : String)
       (pw : Option String) (h : String),
       findOneByUserName store userName = none →
       bhash pw = Except.ok h →
       registerUser store bhash freshId now userName pw pw =
         ⟨Except.ok ⟨freshId, userName, now⟩,
          store ++ [⟨freshId, userName, h, now⟩],
          [RegEvent.dupCheck userName, RegEvent.hashCall pw,
           RegEvent.save ⟨freshId, userName, h, now⟩]⟩ ∧
       registerRoute store bhash secret freshId now userName pw pw =
         (⟨201, [("message", JVal.jstr "User created successfully"),
                 ("token", JVal.jtok (jwtSign ⟨freshId, userName⟩ secret))]⟩,
          store ++ [⟨freshId, userName, h, now⟩])) ∧
    (∀ (store : UserStore) (bhash : Option String → Except String String)
       (secret : String) (freshId now : Nat) (userName : String)
       (pw pw2 : Option String),
       pw ≠ pw2 →
       (registerRoute store bhash secret freshId now userName pw pw2).1.status = 422) ∧
    (∀ (store : UserStore) (bhash : Option String → Except String String)
       (secret : String) (freshId now : Nat) (userName : String)
       (pw : Option String) (u : UserRec),
       findOneByUserName store userName = some u →
       (registerRoute store bhash secret freshId now userName pw pw).1.status = 422) := by
  refine ⟨?_, ?_, ?_⟩
  · intro store bhash secret freshId now userName pw h hfind hb
    have hreg : registerUser store bhash freshId now userName pw pw =
        ⟨Except.ok ⟨freshId, userName, now⟩,
         store ++ [⟨freshId, userName, h, now⟩],
         [RegEvent.dupCheck userName, RegEvent.hashCall pw,
          RegEvent.save ⟨freshId, userName, h, now⟩]⟩ := by
      simp [registerUser, hfind, hb]
    exact ⟨hreg, by simp [registerRoute, hreg]⟩
  · intro store bhash secret freshId now userName pw pw2 hne
    have hreg : registerUser store bhash freshId now userName pw pw2 =
        ⟨Except.error "Passwords do not match", store, []⟩ := by
      unfold registerUser
      rw [if_pos hne]
    simp [registerRoute, hreg]
  · intro store bhash secret freshId now userName pw u hfind
    have hreg : (registerUser store bhash freshId now userName pw pw).result =
        Except.error "Username already exists" := by
      simp [registerUser, hfind]
    simp [registerRoute]
    rw [hreg]

/-- Witness for C2: a concrete fresh registration persists the record and
answers 201 with a message and token body. -/
theorem register_success_and_route_witness :
    registerRoute [] (fun _ => Except.ok "h1") "s" 1 0 "alice" (some "pw") (some "pw") =
      (⟨201, [("message", JVal.jstr "User created successfully"),
              ("token", JVal.jtok (jwtSign ⟨1, "alice"⟩ "s"))]⟩,
       [⟨1, "alice", "h1", 0⟩]) :=
  (register_success_and_route.1 [] (fun _ => Except.ok "h1") "s" 1 0 "alice"
    (some "pw") "h1" (by rfl) (by rfl)).2

/-- Claim C6: whenever checkUser resolves an identity for a login, the
route issues a token embedding exactly that identity's id and username,
and the JWT strategy, applied to that token with the same secret over a
store with pairwise-distinct ids, resolves the embedded id back to the
very same stored identity. -/
theorem login_token_roundtrip :
    ∀ (store : UserStore) (cmp : Option String → String → Bool) (secret : String)
      (userName : String) (password : Option String) (u : UserRec),
      (store.map UserRec.id).Nodup →
      checkUser store cmp userName password = Except.ok u →
      loginRoute store cmp secret userName password =
        ⟨200, [("message", JVal.jstr "Login successful"),
               ("token", JVal.jtok (jwtSign ⟨u.id, u.userName⟩ secret)),
               ("user", JVal.juser u.id u.userName)]⟩ ∧
      jwtStrategy store secret (jwtSign ⟨u.id, u.userName⟩ secret) = some u := by
  intro store cmp secret userName password u hnd hchk
  have hmem : u ∈ store := by
    unfold checkUser at hchk
    split at hchk
    · cases hchk
    · rename_i v heq
      split at hchk
      · injection hchk with h
        subst h
        exact List.mem_of_find?_eq_some heq
      · cases hchk
  constructor
  · simp [loginRoute, hchk]
  · have hbyid : findUserById store u.id = some u :=
      find?_userId_eq store u hmem hnd
    simp [jwtStrategy, jwtVerify, jwtSign, getUserById, hbyid]

/-- Witness for C6: a concrete login of alice yields a token over id 1
and userName alice, and the strategy resolves it back to alice. -/
theorem login_token_roundtrip_witness :
    loginRoute c6store (fun p h => p == some "pw" && h == "hash1") "top" "alice" (some "pw") =
      ⟨200, [("message", JVal.jstr "Login successful"),
             ("token", JVal.jtok (jwtSign ⟨1, "alice"⟩ "top")),
             ("user", JVal.juser 1 "alice")]⟩ ∧
    jwtStrategy c6store "top" (jwtSign ⟨1, "alice"⟩ "top") = some c6alice := by
  have h := login_token_roundtrip c6store (fun p h => p == some "pw" && h == "hash1")
    "top" "alice" (some "pw") c6alice (by simp [c6store]) (by rfl)
  exact h

set_option maxRecDepth 4096 in
/-- Counterexample for C1 as stated: a record with the requested id owned
by the caller exists, yet the update fails, because the explicit 301
character excerpt violates the schema maxlength run by the update
validators; so success is not equivalent to the existence of a matching
record. -/
theorem auth_iff_counterexample :
    c1blog ∈ [c1blog] ∧ c1blog.id = 1 ∧ c1blog.author = 7 ∧
    updateBlog [c1blog] 1 c1badUpd 7 5 =
      Except.error "Error updating blog: ValidationError" := by
  exact ⟨List.mem_singleton_self _, rfl, rfl, rfl⟩

/-- Claim C1 (amended): for update and delete of blogs and projects, an
update passing the schema update validation succeeds iff a record with
the requested id owned by the caller exists, and a delete succeeds iff
such a record exists; whenever no such record exists the operation fails
with the single collapsed not-found-or-unauthorized error, the same
whether the id is absent or the record belongs to a different owner. -/
theorem update_delete_auth :
    (∀ (store : List Blog) (id : Nat) (u : BlogUpdate) (authorId now : Nat),
       blogUpdateValid (deriveBlogUpdate u) = true →
       ((∃ r, updateBlog store id u authorId now = Except.ok r) ↔
         ∃ b ∈ store, b.id = id ∧ b.author = authorId)) ∧
    (∀ (store : List Blog) (id : Nat) (u : BlogUpdate) (authorId now : Nat),
       blogUpdateValid (deriveBlogUpdate u) = true →
       (¬ ∃ b ∈ store, b.id = id ∧ b.author = authorId) →
       updateBlog store id u authorId now =
         Except.error "Blog not found or unauthorized") ∧
    (∀ (store : List Blog) (id authorId : Nat) (cloud : String → CloudResult),
       ((∃ o, deleteBlog store id authorId cloud = Except.ok o) ↔
         ∃ b ∈ store, b.id = id ∧ b.author = authorId)) ∧
    (∀ (store : List Blog) (id authorId : Nat) (cloud : String → CloudResult),
       (¬ ∃ b ∈ store, b.id = id ∧ b.author = authorId) →
       deleteBlog store id authorId cloud =
         Except.error "Blog not found or unauthorized") ∧
    (∀ (store : List Project) (id : Nat) (u : ProjectUpdate) (authorId now : Nat),
       projectUpdateValid u = true →
       ((∃ r, updateProject store id u authorId now = Except.ok r) ↔
         ∃ p ∈ store, p.id = id ∧ p.author = authorId)) ∧
    (∀ (store : List Project) (id : Nat) (u : ProjectUpdate) (authorId now : Nat),
       projectUpdateValid u = true →
       (¬ ∃ p ∈ store, p.id = id ∧ p.author = authorId) →
       updateProject store id u authorId now =
         Except.error "Project not found or unauthorized") ∧
    (∀ (store : List Project) (id authorId : Nat) (cloud : String → CloudResult),
       ((∃ o, deleteProject store id authorId cloud = Except.ok o) ↔
         ∃ p ∈ store, p.id = id ∧ p.author = authorId)) ∧
    (∀ (store : List Project) (id authorId : Nat) (cloud : String → CloudResult),
       (¬ ∃ p ∈ store, p.id = id ∧ p.author = authorId) →
       deleteProject store id authorId cloud =
         Except.error "Project not found or unauthorized") := by
  refine ⟨?_, ?_, ?_, ?_, ?_, ?_, ?_, ?_⟩
  · intro store id u authorId now hv
    simp only [updateBlog]
    rw [if_pos hv]
    cases hfind : store.find? (blogMatches id authorId) with
    | none =>
        constructor
        · rintro ⟨r, hr⟩
          cases hr
        · rintro ⟨b, hb, hid, hauth⟩
          exact absurd ((blogMatches_true_iff id authorId b).2 ⟨hid, hauth⟩)
            (List.find?_eq_none.1 hfind b hb)
    | some b =>
        constructor
        · intro _
          exact ⟨b, List.mem_of_find?_eq_some hfind,
                 (blogMatches_true_iff id authorId b).1 (List.find?_some hfind)⟩
        · intro _
          exact ⟨_, rfl⟩
  · intro store id u authorId now hv hno
    simp only [updateBlog]
    rw [if_pos hv]
    cases hfind : store.find? (blogMatches id authorId) with
    | none => rfl
    | some b =>
        exact absurd ⟨b, List.mem_of_find?_eq_some hfind,
          (blogMatches_true_iff id authorId b).1 (List.find?_some hfind)⟩ hno
  · intro store id authorId cloud
    simp only [deleteBlog]
    cases hfind : store.find? (blogMatches id authorId) with
    | none =>
        constructor
        · rintro ⟨o, ho⟩
          cases ho
        · rintro ⟨b, hb, hid, hauth⟩
          exact absurd ((blogMatches_true_iff id authorId b).2 ⟨hid, hauth⟩)
            (List.find?_eq_none.1 hfind b hb)
    | some b =>
        constructor
        · intro _
          exact ⟨b, List.mem_of_find?_eq_some hfind,
                 (blogMatches_true_iff id authorId b).1 (List.find?_some hfind)⟩
        · intro _
          dsimp only
          by_cases him : strTruthy b.featuredImage = true
          · rw [if_pos him]
            cases cloud ("portfolio/images/" ++ publicIdOf (b.featuredImage.getD "")) with
            | success => exact ⟨_, rfl⟩
            | failure e => exact ⟨_, rfl⟩
          · rw [if_neg him]
            exact ⟨_, rfl⟩
  · intro store id authorId cloud hno
    simp only [deleteBlog]
    cases hfind : store.find? (blogMatches id authorId) with
    | none => rfl
    | some b =>
        exact absurd ⟨b, List.mem_of_find?_eq_some hfind,
          (blogMatches_true_iff id authorId b).1 (List.find?_some hfind)⟩ hno
  · intro store id u authorId now hv
    simp only [updateProject]
    rw [if_pos hv]
    cases hfind : store.find? (projectMatches id authorId) with
    | none =>
        constructor
        · rintro ⟨r, hr⟩
          cases hr
        · rintro ⟨p, hp, hid, hauth⟩
          exact absurd ((projectMatches_true_iff id authorId p).2 ⟨hid, hauth⟩)
            (List.find?_eq_none.1 hfind p hp)
    | some p =>
        constructor
        · intro _
          exact ⟨p, List.mem_of_find?_eq_some hfind,
                 (projectMatches_true_iff id authorId p).1 (List.find?_some hfind)⟩
        · intro _
          exact ⟨_, rfl⟩
  · intro store id u authorId now hv hno
    simp only [updateProject]
    rw [if_pos hv]
    cases hfind : store.find? (projectMatches id authorId) with
    | none => rfl
    | some p =>
        exact absurd ⟨p, List.mem_of_find?_eq_some hfind,
          (projectMatches_true_iff id authorId p).1 (List.find?_some hfind)⟩ hno
  · intro store id authorId cloud
    simp only [deleteProject]
    cases hfind : store.find? (projectMatches id authorId) with
    | none =>
        constructor
        · rintro ⟨o, ho⟩
          cases ho
        · rintro ⟨p, hp, hid, hauth⟩
          exact absurd ((projectMatches_true_iff id authorId p).2 ⟨hid, hauth⟩)
            (List.find?_eq_none.1 hfind p hp)
    | some p =>
        constructor
        · intro _
          exact ⟨p, List.mem_of_find?_eq_some hfind,
                 (projectMatches_true_iff id authorId p).1 (List.find?_some hfind)⟩
        · intro _
          dsimp only
          by_cases hvid : strTruthy p.videoUrl = true
          · rw [if_pos hvid]
            cases cloud ("portfolio/videos/" ++ publicIdOf (p.videoUrl.getD "")) with
            | success => exact ⟨_, rfl⟩
            | failure e => exact ⟨_, rfl⟩
          · rw [if_neg hvid]
            exact ⟨_, rfl⟩
  · intro store id authorId cloud hno
    simp only [deleteProject]
    cases hfind : store.find? (projectMatches id authorId) with
    | none => rfl
    | some p =>
        exact absurd ⟨p, List.mem_of_find?_eq_some hfind,
          (projectMatches_true_iff id authorId p).1 (List.find?_some hfind)⟩ hno

/-- Witness for C1: on concrete stores, a wrong id and a wrong owner
produce the identical collapsed error for blog and project update and
delete, and an owned matching record makes the valid update succeed. -/
theorem update_delete_auth_witness :
    updateBlog [c1blog] 2 c1upd 7 5 = Except.error "Blog not found or unauthorized" ∧
    updateBlog [c1blog] 1 c1upd 9 5 = Except.error "Blog not found or unauthorized" ∧
    deleteBlog [c1blog] 2 7 (fun _ => CloudResult.success) =
      Except.error "Blog not found or unauthorized" ∧
    updateProject [] 1 c1projUpd 7 5 = Except.error "Project not found or unauthorized" ∧
    deleteProject [] 1 7 (fun _ => CloudResult.success) =
      Except.error "Project not found or unauthorized" ∧
    (updateBlog [c1blog] 1 c1upd 7 5).isOk = true := by
  refine ⟨?_, ?_, ?_, ?_, ?_, ?_⟩
  · exact update_delete_auth.2.1 [c1blog] 2 c1upd 7 5 (by rfl) (by decide)
  · exact update_delete_auth.2.1 [c1blog] 1 c1upd 9 5 (by rfl) (by decide)
  · exact update_delete_auth.2.2.2.1 [c1blog] 2 7 (fun _ => CloudResult.success) (by decide)
  · exact update_delete_auth.2.2.2.2.2.1 [] 1 c1projUpd 7 5 (by rfl) (by decide)
  · exact update_delete_auth.2.2.2.2.2.2.2 [] 1 7 (fun _ => CloudResult.success) (by decide)
  · obtain ⟨r, hr⟩ := (update_delete_auth.1 [c1blog] 1 c1upd 7 5 (by rfl)).2
      ⟨c1blog, List.mem_singleton_self _, rfl, rfl⟩
    rw [hr]
    rfl

/-- Claim C3: deleting an owned blog or project that carries a media
locator always resolves successfully with the record erased from the
store, for every possible outcome of the remote asset-host call; the
cloud outcome influences only the log entry, so a remote failure is never
surfaced and the record deletion is never rolled back. -/
theorem delete_detach_best_effort :
    (∀ (store : List Blog) (id authorId : Nat) (cloud : String → CloudResult) (b : Blog),
       store.find? (blogMatches id authorId) = some b →
       strTruthy b.featuredImage = true →
       deleteBlog store id authorId cloud =
         Except.ok ⟨store.eraseP (blogMatches id authorId),
                    ["portfolio/images/" ++ publicIdOf (b.featuredImage.getD "")],
                    match cloud ("portfolio/images/" ++ publicIdOf (b.featuredImage.getD "")) with
                    | CloudResult.success => []
                    | CloudResult.failure e =>
                        ["Error deleting image from Cloudinary: " ++ e]⟩) ∧
    (∀ (store : List Project) (id authorId : Nat) (cloud : String → CloudResult) (p : Project),
       store.find? (projectMatches id authorId) = some p →
       strTruthy p.videoUrl = true →
       deleteProject store id authorId cloud =
         Except.ok ⟨store.eraseP (projectMatches id authorId),
                    ["portfolio/videos/" ++ publicIdOf (p.videoUrl.getD "")],
                    match cloud ("portfolio/videos/" ++ publicIdOf (p.videoUrl.getD "")) with
                    | CloudResult.success => []
                    | CloudResult.failure e =>
                        ["Error deleting video from Cloudinary: " ++ e]⟩) := by
  constructor
  · intro store id authorId cloud b hfind him
    simp only [deleteBlog]
    rw [hfind]
    dsimp only
    rw [if_pos him]
    cases hcl : cloud ("portfolio/images/" ++ publicIdOf (b.featuredImage.getD "")) with
    | success => rfl
    | failure e => rfl
  · intro store id authorId cloud p hfind hvid
    simp only [deleteProject]
    rw [hfind]
    dsimp only
    rw [if_pos hvid]
    cases hcl : cloud ("portfolio/videos/" ++ publicIdOf (p.videoUrl.getD "")) with
    | success => rfl
    | failure e => rfl

/-- Witness for C3: deleting the concrete blog and project, against an
asset host whose delete call always fails, still resolves successfully
with the record removed; the failure appears only in the log. -/
theorem delete_detach_best_effort_witness :
    deleteBlog [c3blog] 1 7 (fun _ => CloudResult.failure "down") =
      Except.ok ⟨[], ["portfolio/images/pic"],
                 ["Error deleting image from Cloudinary: down"]⟩ ∧
    deleteProject [c3proj] 1 7 (fun _ => CloudResult.failure "down") =
      Except.ok ⟨[], ["portfolio/videos/clip"],
                 ["Error deleting video from Cloudinary: down"]⟩ := by
  constructor
  · exact delete_detach_best_effort.1 [c3blog] 1 7
      (fun _ => CloudResult.failure "down") c3blog (by rfl) (by rfl)
  · exact delete_detach_best_effort.2 [c3proj] 1 7
      (fun _ => CloudResult.failure "down") c3proj (by rfl) (by rfl)

/-- Claim C4: a blog created from 1000-character content with no explicit
excerpt carries the derived excerpt, whose length is exactly 300 (the
first 297 characters plus the ellipsis); and every created or updated
blog whose request carries truthy content has readTime equal to the
ceiling of wordCount divided by 200. -/
theorem excerpt_readTime_derivation :
    (∀ (store : List Blog) (d : BlogData) (authorId freshId now : Nat)
       (b : Blog) (rest : List Blog),
       createBlog store d authorId freshId now = Except.ok (b, rest) →
       strTruthy d.excerpt = false →
       d.content.length = 1000 →
       b.excerpt = some (deriveExcerpt d.content) ∧
       (deriveExcerpt d.content).length = 300) ∧
    (∀ (store : List Blog) (d : BlogData) (authorId freshId now : Nat)
       (b : Blog) (rest : List Blog),
       createBlog store d authorId freshId now = Except.ok (b, rest) →
       d.content ≠ "" →
       b.readTime = ⌈(wordCount d.content : ℚ) / 200⌉₊) ∧
    (∀ (store : List Blog) (id : Nat) (u : BlogUpdate) (authorId now : Nat)
       (b2 : Blog) (rest : List Blog),
       updateBlog store id u authorId now = Except.ok (b2, rest) →
       strTruthy u.content = true →
       b2.readTime = ⌈(wordCount (u.content.getD "") : ℚ) / 200⌉₊) := by
  refine ⟨?_, ?_, ?_⟩
  · intro store d authorId freshId now b rest h hf hlen
    have hne0 : d.content ≠ "" := by
      intro he
      rw [he] at hlen
      simp at hlen
    simp only [createBlog] at h
    split at h
    · simp only [Except.ok.injEq, Prod.mk.injEq] at h
      obtain ⟨hb, hrest⟩ := h
      constructor
      · rw [← hb]
        simp [newBlogDoc, deriveBlogData_excerpt d hf hne0]
      · unfold deriveExcerpt
        rw [String.length_append, jsSubstring_length, hlen]
        rfl
    · cases h
  · intro store d authorId freshId now b rest h hne0
    simp only [createBlog] at h
    split at h
    · simp only [Except.ok.injEq, Prod.mk.injEq] at h
      obtain ⟨hb, hrest⟩ := h
      rw [← hb]
      simp [newBlogDoc, deriveBlogData_readTime d hne0, Option.getD_some]
      unfold deriveReadTime
      exact jsCeilDiv_eq_ceil _ 200 (by norm_num)
    · cases h
  · intro store id u authorId now b2 rest h hc
    simp only [updateBlog] at h
    split at h
    · split at h
      · cases h
      · rename_i b heq
        simp only [Except.ok.injEq, Prod.mk.injEq] at h
        obtain ⟨hb, hrest⟩ := h
        rw [← hb]
        simp only [applyBlogUpdate, deriveBlogUpdate_readTime u hc, Option.getD_some]
        unfold deriveReadTime
        exact jsCeilDiv_eq_ceil _ 200 (by norm_num)
    · cases h

/-- Witness for C4: the blog created from the concrete 1000-character
content carries the 300-character derived excerpt and the ceiling read
time, and the concrete three-word update carries the ceiling read time. -/
theorem excerpt_readTime_derivation_witness :
    c4expected.excerpt = some (deriveExcerpt c4content) ∧
    (deriveExcerpt c4content).length = 300 ∧
    c4expected.readTime = ⌈(wordCount c4content : ℚ) / 200⌉₊ ∧
    c4updated.readTime = ⌈(wordCount "one two three" : ℚ) / 200⌉₊ := by
  have hlen : c4content.length = 1000 := by
    simp only [c4content, length_mk, List.length_replicate]
  have hne : c4content ≠ "" := by
    intro h
    have h2 := congrArg String.length h
    rw [hlen] at h2
    simp at h2
  have hneB : (c4content != "") = true := bne_iff_ne.2 hne
  have hexc3 : (deriveExcerpt c4content).length = 300 := by
    unfold deriveExcerpt
    rw [String.length_append, jsSubstring_length, hlen]
    rfl
  have hd : deriveBlogData c4data =
      { title := "T", content := c4content, featuredImage := none,
        published := false, tags := [], excerpt := some (deriveExcerpt c4content),
        readTime := some (deriveReadTime c4content) } := by
    simp [deriveBlogData, c4data, strTruthy, hneB]
  have hvalid : blogDocValid (newBlogDoc (deriveBlogData c4data) 7 1 0) = true := by
    rw [hd]
    simp [blogDocValid, newBlogDoc, hexc3, hneB]
  have hcreate : createBlog [] c4data 7 1 0 = Except.ok (c4expected, [c4expected]) := by
    simp only [createBlog]
    rw [if_pos hvalid, hd]
    simp [newBlogDoc, c4expected]
  have h1 := excerpt_readTime_derivation.1 [] c4data 7 1 0 c4expected [c4expected]
    hcreate rfl hlen
  have h2 := excerpt_readTime_derivation.2.1 [] c4data 7 1 0 c4expected [c4expected]
    hcreate hne
  have hupd : updateBlog [c1blog] 1 c4upd 7 9 = Except.ok (c4updated, [c4updated]) := rfl
  have h3 := excerpt_readTime_derivation.2.2 [c1blog] 1 c4upd 7 9 c4updated [c4updated]
    hupd rfl
  exact ⟨h1.1, h1.2, h2, h3⟩

/-- Claim C9: whenever the excerpt is auto-derived (no explicit excerpt,
truthy content), the stored excerpt is the first 297 characters of the
content with the ellipsis appended unconditionally; in particular for
content shorter than 297 characters it is the entire content plus the
ellipsis, of length content length plus three. -/
theorem excerpt_unconditional_ellipsis :
    (∀ (store : List Blog) (d : BlogData) (authorId freshId now : Nat)
       (b : Blog) (rest : List Blog),
       createBlog store d authorId freshId now = Except.ok (b, rest) →
       strTruthy d.excerpt = false →
       d.content ≠ "" →
       b.excerpt = some (jsSubstring d.content 297 ++ "...") ∧
       (d.content.length < 297 →
         b.excerpt = some (d.content ++ "...") ∧
         (jsSubstring d.content 297 ++ "...").length = d.content.length + 3)) ∧
    (∀ (store : List Blog) (id : Nat) (u : BlogUpdate) (authorId now : Nat)
       (b2 : Blog) (rest : List Blog),
       updateBlog store id u authorId now = Except.ok (b2, rest) →
       strTruthy u.excerpt = false →
       strTruthy u.content = true →
       b2.excerpt = some (jsSubstring (u.content.getD "") 297 ++ "...") ∧
       ((u.content.getD "").length < 297 →
         b2.excerpt = some ((u.content.getD "") ++ "..."))) := by
  constructor
  · intro store d authorId freshId now b rest h hf hne0
    simp only [createBlog] at h
    split at h
    · simp only [Except.ok.injEq, Prod.mk.injEq] at h
      obtain ⟨hb, hrest⟩ := h
      have hexc : b.excerpt = some (jsSubstring d.content 297 ++ "...") := by
        rw [← hb]
        simp [newBlogDoc, deriveBlogData_excerpt d hf hne0, deriveExcerpt]
      refine ⟨hexc, fun hshort => ⟨?_, ?_⟩⟩
      · rw [hexc, jsSubstring_of_le d.content 297 (le_of_lt hshort)]
      · rw [String.length_append, jsSubstring_length,
            min_eq_right (le_of_lt hshort)]
        rfl
    · cases h
  · intro store id u authorId now b2 rest h hf hc
    simp only [updateBlog] at h
    split at h
    · split at h
      · cases h
      · rename_i b heq
        simp only [Except.ok.injEq, Prod.mk.injEq] at h
        obtain ⟨hb, hrest⟩ := h
        have hexc : b2.excerpt = some (jsSubstring (u.content.getD "") 297 ++ "...") := by
          rw [← hb]
          simp [applyBlogUpdate, deriveBlogUpdate_excerpt u hf hc, deriveExcerpt]
        refine ⟨hexc, fun hshort => ?_⟩
        rw [hexc, jsSubstring_of_le _ 297 (le_of_lt hshort)]
    · cases h

/-- Witness for C9: creating a blog from the eight-character content
produces the full content plus ellipsis, of length eleven. -/
theorem excerpt_unconditional_ellipsis_witness :
    c9expected.excerpt = some ("hi there" ++ "...") ∧
    (jsSubstring "hi there" 297 ++ "...").length = 8 + 3 := by
  have hcreate : createBlog [] c9data 7 1 0 = Except.ok (c9expected, [c9expected]) := rfl
  have h := excerpt_unconditional_ellipsis.1 [] c9data 7 1 0 c9expected [c9expected]
    hcreate rfl (by decide)
  have h2 := h.2 (by decide)
  exact ⟨h2.1, h2.2⟩

/-- Claim C5: for every list request with positive page size, the
returned page count is the ceiling of the total count over the page size,
hasNextPage holds exactly when the page number is below that page count,
and hasPreviousPage exactly when the page number exceeds 1; in
particular, page 2 of a 15-document collection with limit 10 returns 5
documents with hasNextPage false and hasPreviousPage true. -/
theorem pagination_correct :
    (∀ (store : List Blog) (po : Bool) (page limit : Nat), 0 < limit →
       (getBlogs store po page limit).2.totalPages =
         ⌈((getBlogs store po page limit).2.totalCount : ℚ) / limit⌉₊ ∧
       ((getBlogs store po page limit).2.hasNextPage = true ↔
         page < ⌈((getBlogs store po page limit).2.totalCount : ℚ) / limit⌉₊) ∧
       ((getBlogs store po page limit).2.hasPreviousPage = true ↔ 1 < page)) ∧
    (∀ (store : List Blog) (po : Bool),
       (if po then store.filter (fun b => b.published) else store).length = 15 →
       (getBlogs store po 2 10).1.length = 5 ∧
       (getBlogs store po 2 10).2.hasNextPage = false ∧
       (getBlogs store po 2 10).2.hasPreviousPage = true) ∧
    (∀ (store : List Project) (page limit : Nat), 0 < limit →
       (getProjects store page limit).2.totalPages =
         ⌈((getProjects store page limit).2.totalCount : ℚ) / limit⌉₊ ∧
       ((getProjects store page limit).2.hasNextPage = true ↔
         page < ⌈((getProjects store page limit).2.totalCount : ℚ) / limit⌉₊) ∧
       ((getProjects store page limit).2.hasPreviousPage = true ↔ 1 < page)) ∧
    (∀ (store : List Project),
       store.length = 15 →
       (getProjects store 2 10).1.length = 5 ∧
       (getProjects store 2 10).2.hasNextPage = false ∧
       (getProjects store 2 10).2.hasPreviousPage = true) := by
  refine ⟨?_, ?_, ?_, ?_⟩
  · intro store po page limit hl
    simp only [getBlogs]
    refine ⟨jsCeilDiv_eq_ceil _ limit hl, ?_, ?_⟩
    · rw [decide_eq_true_eq, jsCeilDiv_eq_ceil _ limit hl]
    · rw [decide_eq_true_eq]
  · intro store po hlen
    simp only [getBlogs]
    refine ⟨?_, ?_, rfl⟩
    · rw [List.length_take, List.length_drop, List.length_mergeSort, hlen]
      decide
    · rw [hlen]
      decide
  · intro store page limit hl
    simp only [getProjects]
    refine ⟨jsCeilDiv_eq_ceil _ limit hl, ?_, ?_⟩
    · rw [decide_eq_true_eq, jsCeilDiv_eq_ceil _ limit hl]
    · rw [decide_eq_true_eq]
  · intro store hlen
    simp only [getProjects]
    refine ⟨?_, ?_, rfl⟩
    · rw [List.length_take, List.length_drop, List.length_mergeSort, hlen]
      decide
    · rw [hlen]
      decide

/-- Witness for C5: page 2 with limit 10 over the concrete 15-document
collections returns 5 documents, no next page, and a previous page. -/
theorem pagination_correct_witness :
    (getBlogs c5blogs true 2 10).1.length = 5 ∧
    (getBlogs c5blogs true 2 10).2.hasNextPage = false ∧
    (getBlogs c5blogs true 2 10).2.hasPreviousPage = true ∧
    (getProjects c5projects 2 10).1.length = 5 ∧
    (getProjects c5projects 2 10).2.hasNextPage = false ∧
    (getProjects c5projects 2 10).2.hasPreviousPage = true := by
  have hb := pagination_correct.2.1 c5blogs true (by rfl)
  have hp := pagination_correct.2.2.2 c5projects (by rfl)
  exact ⟨hb.1, hb.2.1, hb.2.2, hp.1, hp.2.1, hp.2.2⟩

end Backend
